import Mathlib

/-
Verification development for the library service in back/server.js
(Express + Sequelize over SQLite).  The persistent state (the three
tables Books, Readers, BookIssues together with their autoincrement
counters) is embedded as a `Store`; each HTTP handler becomes a function
`Store → Store × ApiResult _` returning the post-state on every path —
faithful to the JS code, where a thrown error is caught by the handler's
try/catch but the awaits already performed keep their effects.

A load-bearing point of the embedding: the BookIssue model (server.js
lines 72-85) declares only issueDate, returnDate and status, and the
file declares no hasMany/belongsTo association anywhere, so the
BookIssues table has no BookId or ReaderId column.  Consequently
BookIssue.create({BookId, ReaderId, status}) on line 433 silently drops
the two keys (they are not model attributes) and persists a row with no
book or reader reference, and BookIssue.findOne({where:{BookId, ...}})
on lines 490-495 emits SQL against a nonexistent column, so the query
rejects with an SQL error before reading or writing anything and the
handler's catch answers 400.  The embedding of `Issue`, `issueWrite1`
and `returnBook` below reflects exactly this.
-/

namespace LibServer

/-- Book.status enum from server.js lines 42-45:
DataTypes.ENUM of available, issued, repair with defaultValue available. -/
inductive BookStatus
  | available
  | issued
  | repair
deriving DecidableEq, Repr

/-- BookIssue.status enum from server.js lines 81-84:
DataTypes.ENUM of issued, returned, overdue with defaultValue issued. -/
inductive IssueStatus
  | issued
  | returned
  | overdue
deriving DecidableEq, Repr

/-- Book row (server.js lines 19-46).  `id` is the Sequelize-assigned
primary key; `year` is nullable (no allowNull: false on it). -/
structure Book where
  id : Nat
  title : String
  author : String
  year : Option Int
  status : BookStatus
deriving DecidableEq, Repr

/-- Reader row (server.js lines 48-70). `phone` is nullable. -/
structure Reader where
  id : Nat
  name : String
  email : String
  phone : Option String
deriving DecidableEq, Repr

/-- BookIssue row as the schema actually defines it (server.js lines
72-85): the primary key plus issueDate, returnDate and status, and
nothing else.  There are no BookId / ReaderId columns: the model
declares no such attributes and no association is defined anywhere in
the file, so an Issue row references no book and no reader.  Dates are
day numbers (DATEONLY). -/
structure Issue where
  id : Nat
  issueDate : Nat
  returnDate : Option Nat
  status : IssueStatus
deriving DecidableEq, Repr

/-- The SQLite database: the three tables in insertion order plus the
autoincrement counters (Sequelize primary keys start at 1). -/
structure Store where
  books : List Book
  readers : List Reader
  issues : List Issue
  nextBookId : Nat
  nextReaderId : Nat
  nextIssueId : Nat
deriving DecidableEq, Repr

/-- The store right after `sequelize.sync` on a fresh database file. -/
def emptyStore : Store :=
  { books := [], readers := [], issues := [],
    nextBookId := 1, nextReaderId := 1, nextIssueId := 1 }

/-- Outcome of one handler: the HTTP response, either a JSON entity with
its status code or an error object with its status code and message. -/
inductive ApiResult (α : Type)
  | ok (code : Nat) (v : α)
  | err (code : Nat) (msg : String)
deriving DecidableEq, Repr

/-- Whitespace class of the JS regexes involved (ASCII part of \s). -/
def isWs (c : Char) : Bool :=
  c = ' ' || c = '\t' || c = '\n' || c = '\r' || c = '\x0b' || c = '\x0c'

/-- Sequelize's notEmpty validator (validate: notEmpty on title, author,
name): it rejects exactly the strings every character of which is
whitespace, i.e. those matching the anchored all-whitespace regex. -/
def notEmptyCheck (s : String) : Bool :=
  !(s.data.all isWs)

/-- Length of the string after stripping leading and trailing whitespace:
the "trimmed length" the spec's non-empty-text rule speaks about. -/
def trimmedLen (s : String) : Nat :=
  ((s.data.dropWhile isWs).reverse.dropWhile isWs).length

/-- Year validators from server.js lines 34-41: isInt, min 0 and
max new Date().getFullYear().  The max expression is evaluated once, when
the Book model is defined at process start, so it is the fixed parameter
`startYear` for the whole process lifetime. -/
def yearCheck (startYear y : Int) : Bool :=
  0 ≤ y && y ≤ startYear

/-- Stated from the claim's words, for comparison with `yearCheck`: the
upper bound is the calendar year at the moment of the validation call. -/
def yearCheckAtCall (callYear y : Int) : Bool :=
  0 ≤ y && y ≤ callYear

def yearFieldOk (startYear : Int) : Option Int → Bool
  | none => true
  | some y => yearCheck startYear y

/-- Modelled from the spec: the email rule delegates to the ORM's isEmail
validator, whose code lives in an external library and not in this
repository; the spec states it as local-part at domain with at least one
domain dot. -/
def emailCheck (s : String) : Bool :=
  match s.splitOn "@" with
  | [lp, dom] =>
      decide (1 ≤ lp.length) &&
      decide (2 ≤ (dom.splitOn ".").length) &&
      (dom.splitOn ".").all (fun p => decide (1 ≤ p.length))
  | _ => false

/-- Character class of the phone regex on server.js line 67. -/
def phoneClassChar (c : Char) : Bool :=
  c.isDigit || isWs c || c = '-' || c = '(' || c = ')'

/-- Phone validator from server.js line 67: an optional leading plus sign
followed by at least seven digit / whitespace / hyphen / parenthesis
characters, anchored at both ends. -/
def phoneCheck (s : String) : Bool :=
  match s.data with
  | '+' :: rest => decide (7 ≤ rest.length) && rest.all phoneClassChar
  | cs => decide (7 ≤ cs.length) && cs.all phoneClassChar

def phoneFieldOk : Option String → Bool
  | none => true
  | some p => phoneCheck p

set_option linter.unusedVariables false in
/-- POST /books (server.js lines 291-298): Book.create(req.body).
Sequelize runs the field validators in definition order (title, author,
year); on failure nothing is persisted and the handler answers 400.
`startYear` is the calendar year at process start (captured by the model
definition), `callYear` the calendar year at the moment of this call —
the code never consults the latter. -/
def createBook (startYear callYear : Int) (title author : String)
    (year? : Option Int) (status? : Option BookStatus) (s : Store) :
    Store × ApiResult Book :=
  if !(notEmptyCheck title) then
    (s, ApiResult.err 400 "Validation notEmpty on title failed")
  else if !(notEmptyCheck author) then
    (s, ApiResult.err 400 "Validation notEmpty on author failed")
  else if !(yearFieldOk startYear year?) then
    (s, ApiResult.err 400 "Validation on year failed")
  else
    let b : Book :=
      { id := s.nextBookId, title := title, author := author,
        year := year?, status := status?.getD BookStatus.available }
    ({ s with books := s.books ++ [b], nextBookId := s.nextBookId + 1 },
     ApiResult.ok 201 b)

/-- POST /readers (server.js lines 364-371): Reader.create(req.body);
validators (name, email, phone) run first, the unique constraint on
email is enforced by the insert itself. -/
def createReader (name email : String) (phone? : Option String)
    (s : Store) : Store × ApiResult Reader :=
  if !(notEmptyCheck name) then
    (s, ApiResult.err 400 "Validation notEmpty on name failed")
  else if !(emailCheck email) then
    (s, ApiResult.err 400 "Validation isEmail on email failed")
  else if !(phoneFieldOk phone?) then
    (s, ApiResult.err 400 "Validation is on phone failed")
  else if !(s.readers.all (fun r => !(r.email = email : Bool))) then
    (s, ApiResult.err 400 "email must be unique")
  else
    let r : Reader :=
      { id := s.nextReaderId, name := name, email := email, phone := phone? }
    ({ s with readers := s.readers ++ [r], nextReaderId := s.nextReaderId + 1 },
     ApiResult.ok 201 r)

/-- Book.findByPk(bookId): first row whose primary key matches. -/
def findBook (s : Store) (bookId : Nat) : Option Book :=
  s.books.find? (fun b => b.id = bookId)

/-- Error body of the combined missing-or-unavailable check on
server.js line 429 ("Книга недоступна для выдачи"). -/
def bookUnavailableMsg : String := "Книга недоступна для выдачи"

/-- Message of the SQL error the BookIssue.findOne of POST /return
rejects with: its where clause names the BookId column, which does not
exist in the BookIssues table; the catch block reports error.message. -/
def noSuchColumnMsg : String := "SQLITE_ERROR: no such column: BookIssue.BookId"

set_option linter.unusedVariables false in
/-- First await of POST /issue (server.js lines 433-437):
BookIssue.create is called with BookId, ReaderId and status issued, but
BookId and ReaderId are not attributes of the BookIssue model and no
association is declared, so Sequelize silently drops both keys: the
persisted row holds only the fresh id, the defaulted issueDate, a null
returnDate and the status — no reference to the book or the reader. -/
def issueWrite1 (now bookId readerId : Nat) (s : Store) : Store × Issue :=
  let i : Issue :=
    { id := s.nextIssueId, issueDate := now, returnDate := none,
      status := IssueStatus.issued }
  ({ s with issues := s.issues ++ [i], nextIssueId := s.nextIssueId + 1 }, i)

/-- book.update with a status value (server.js line 440): rewrites the
status of the row with this primary key. -/
def setBookStatus (s : Store) (bookId : Nat) (st : BookStatus) : Store :=
  { s with books :=
      s.books.map (fun b => if b.id = bookId then { b with status := st } else b) }

/-- POST /issue (server.js lines 422-446).  A missing book and an
unavailable book take the same branch and the same 400 answer; on the
success path the two writes (BookIssue.create, then book.update) happen
one after the other with no transaction around them. -/
def issueBook (now bookId readerId : Nat) (s : Store) :
    Store × ApiResult Issue :=
  match findBook s bookId with
  | none => (s, ApiResult.err 400 bookUnavailableMsg)
  | some b =>
      if b.status ≠ BookStatus.available then
        (s, ApiResult.err 400 bookUnavailableMsg)
      else
        let p := issueWrite1 now bookId readerId s
        (setBookStatus p.1 bookId BookStatus.issued, ApiResult.ok 201 p.2)

set_option linter.unusedVariables false in
/-- POST /return (server.js lines 486-515).  The very first await,
BookIssue.findOne({where:{BookId: bookId, status: issued}}), filters on
the nonexistent BookId column, so the promise rejects with the SQL error
before anything is read or written and the catch block answers 400 with
error.message.  The 404 no-active-issue branch, the issue.update and
the book.update further down are all unreachable; every call returns
the store unchanged. -/
def returnBook (now bookId : Nat) (s : Store) : Store × ApiResult Issue :=
  (s, ApiResult.err 400 noSuchColumnMsg)

/-- One call to an exposed mutating operation, with the request fields and
the ambient clock values it runs under. -/
inductive Op
  | opCreateBook (startYear callYear : Int) (title author : String)
      (year? : Option Int) (status? : Option BookStatus)
  | opCreateReader (name email : String) (phone? : Option String)
  | opIssueBook (now bookId readerId : Nat)
  | opReturnBook (now bookId : Nat)
deriving DecidableEq, Repr

/-- Effect of one operation on the database (the response is dropped;
on every path the post-state is whatever the handler left behind). -/
def step (s : Store) : Op → Store
  | Op.opCreateBook sy cy t a y? st? => (createBook sy cy t a y? st? s).1
  | Op.opCreateReader n e p? => (createReader n e p? s).1
  | Op.opIssueBook now b r => (issueBook now b r s).1
  | Op.opReturnBook now b => (returnBook now b s).1

/-- State after a sequence of operations run against a fresh database. -/
def run (ops : List Op) : Store := ops.foldl step emptyStore

/-- Store holding a single available Book and nothing else. -/
def oneAvailableBookStore : Store :=
  { books := [{ id := 1, title := "T", author := "A", year := none,
                status := BookStatus.available }],
    readers := [], issues := [],
    nextBookId := 2, nextReaderId := 1, nextIssueId := 1 }

/-- Store holding a single Book in repair status and nothing else. -/
def repairBookStore : Store :=
  { books := [{ id := 1, title := "T", author := "A", year := none,
                status := BookStatus.repair }],
    readers := [], issues := [],
    nextBookId := 2, nextReaderId := 1, nextIssueId := 1 }

/-- Store holding one Book switched to repair while an Issue row with
status issued is present (the row, per the real schema, carries no book
reference). -/
def repairWithOpenIssueStore : Store :=
  { books := [{ id := 1, title := "T", author := "A", year := none,
                status := BookStatus.repair }],
    readers := [],
    issues := [{ id := 1, issueDate := 0, returnDate := none,
                 status := IssueStatus.issued }],
    nextBookId := 2, nextReaderId := 1, nextIssueId := 2 }

theorem issueBook_unavailable (now bookId readerId : Nat) (s : Store)
    (b : Book) (hb : findBook s bookId = some b)
    (hst : b.status ≠ BookStatus.available) :
    issueBook now bookId readerId s
      = (s, ApiResult.err 400 bookUnavailableMsg) := by
  unfold issueBook
  rw [hb]
  show (if b.status ≠ BookStatus.available
      then (s, ApiResult.err 400 bookUnavailableMsg)
      else (setBookStatus (issueWrite1 now bookId readerId s).1 bookId
          BookStatus.issued,
        ApiResult.ok 201 (issueWrite1 now bookId readerId s).2)) = _
  rw [if_pos hst]

theorem issueBook_success (now bookId readerId : Nat) (s : Store) (b : Book)
    (hb : findBook s bookId = some b)
    (hav : b.status = BookStatus.available) :
    issueBook now bookId readerId s
      = (setBookStatus (issueWrite1 now bookId readerId s).1 bookId
          BookStatus.issued,
        ApiResult.ok 201 (issueWrite1 now bookId readerId s).2) := by
  unfold issueBook
  rw [hb]
  show (if b.status ≠ BookStatus.available
      then (s, ApiResult.err 400 bookUnavailableMsg)
      else (setBookStatus (issueWrite1 now bookId readerId s).1 bookId
          BookStatus.issued,
        ApiResult.ok 201 (issueWrite1 now bookId readerId s).2)) = _
  rw [if_neg (fun hc => hc hav)]

/-- C1: the issued-iff-one-referencing-open-Issue invariant cannot hold:
after a plain createBook and a successful issueBook through the exposed
operations the book reads issued, while the issues table holds exactly
one row of the shape the schema permits — id, issueDate, null
returnDate, status — which references no book (the BookId key passed to
create is dropped because the model defines no such attribute).  So an
issued book has zero Issues referencing it, never exactly one. -/
theorem c1_issued_book_has_no_referencing_issue :
    (∃ b, findBook (run [Op.opCreateBook 2024 2024 "T" "A" none none,
        Op.opIssueBook 5 1 1]) 1 = some b
      ∧ b.status = BookStatus.issued)
    ∧ (run [Op.opCreateBook 2024 2024 "T" "A" none none,
        Op.opIssueBook 5 1 1]).issues
      = [{ id := 1, issueDate := 5, returnDate := none,
           status := IssueStatus.issued }] := by
  decide

/-- C2: the two writes of POST /issue are separate awaits with no
transaction: the handler is literally the second write composed after
the first (first conjunct), and in the state after the first write alone
— what a crash between the two awaits persists — an Issue row with
status issued exists while the book still reads available, a partial
application of the transition.  (POST /return performs no writes at all:
it rejects before its first read, so its failure paths trivially leave
the store unchanged.) -/
theorem c2_crash_between_writes :
    issueBook 7 1 2 oneAvailableBookStore
      = (setBookStatus (issueWrite1 7 1 2 oneAvailableBookStore).1 1
          BookStatus.issued,
        ApiResult.ok 201 (issueWrite1 7 1 2 oneAvailableBookStore).2)
    ∧ (∃ i ∈ ((issueWrite1 7 1 2 oneAvailableBookStore).1).issues,
        i.status = IssueStatus.issued)
    ∧ findBook ((issueWrite1 7 1 2 oneAvailableBookStore).1) 1
        = some { id := 1, title := "T", author := "A", year := none,
                 status := BookStatus.available } := by
  decide

/-- C3 refuted as stated: POST /issue on a book id with no Book row
takes the same combined branch as an unavailable book and answers 400
with the unavailable-book message, not the 404 NotFound its own swagger
annotation declares; the store is indeed left unchanged. -/
theorem c3_missing_book_same_error_as_unavailable :
    issueBook 0 1 1 emptyStore
      = (emptyStore, ApiResult.err 400 bookUnavailableMsg)
    ∧ findBook emptyStore 1 = none := by
  exact ⟨rfl, rfl⟩

/-- C4: POST /issue on an existing book whose status is not available
(issued or repair) answers 400 with the unavailable-book body and leaves
the store unchanged, so no Issue row is created. -/
theorem c4_unavailable_never_issues (s : Store) (now bookId readerId : Nat)
    (b : Book) (hb : findBook s bookId = some b)
    (hst : b.status ≠ BookStatus.available) :
    issueBook now bookId readerId s
      = (s, ApiResult.err 400 bookUnavailableMsg) :=
  issueBook_unavailable now bookId readerId s b hb hst

theorem c4_unavailable_never_issues_witness :
    (findBook repairBookStore 1
      = some { id := 1, title := "T", author := "A", year := none,
               status := BookStatus.repair })
    ∧ (({ id := 1, title := "T", author := "A", year := none,
          status := BookStatus.repair } : Book).status
        ≠ BookStatus.available)
    ∧ issueBook 3 1 1 repairBookStore
        = (repairBookStore, ApiResult.err 400 bookUnavailableMsg) :=
  ⟨by decide, by decide,
   c4_unavailable_never_issues repairBookStore 3 1 1
     { id := 1, title := "T", author := "A", year := none,
       status := BookStatus.repair } (by decide) (by decide)⟩

/-- C5 refuted as stated: every POST /return — in particular one for a
book with no open Issue — answers 400 with the SQL no-such-column error
and returns the store exactly unchanged; the coded 404 NotFound branch
is unreachable because the findOne itself rejects. -/
theorem c5_return_always_sql_error (now bookId : Nat) (s : Store) :
    returnBook now bookId s = (s, ApiResult.err 400 noSuchColumnMsg) :=
  rfl

/-- C6 refuted: the round trip is impossible in the program.  After
createBook and a successful issueBook, the return call fails 400 on the
SQL error and writes nothing: the book stays issued and the single
Issue row stays open with a null returnDate. -/
theorem c6_round_trip_impossible :
    returnBook 4 1 (run [Op.opCreateBook 2024 2024 "T" "A" none none,
        Op.opIssueBook 3 1 1])
      = (run [Op.opCreateBook 2024 2024 "T" "A" none none,
          Op.opIssueBook 3 1 1], ApiResult.err 400 noSuchColumnMsg)
    ∧ (∃ b, findBook (run [Op.opCreateBook 2024 2024 "T" "A" none none,
        Op.opIssueBook 3 1 1, Op.opReturnBook 4 1]) 1 = some b
        ∧ b.status = BookStatus.issued)
    ∧ (run [Op.opCreateBook 2024 2024 "T" "A" none none,
        Op.opIssueBook 3 1 1, Op.opReturnBook 4 1]).issues
      = [{ id := 1, issueDate := 3, returnDate := none,
           status := IssueStatus.issued }] := by
  decide

/-- C7 (amended): year validation compares against the calendar year
captured once at process start (when the Book model is defined), not the
year at each call: the outcome is independent of the call-time year, and
with valid title and author a year y is accepted exactly when
0 ≤ y ≤ startYear. -/
theorem c7_year_bound_fixed_at_process_start
    (startYear cy1 cy2 y : Int) (title author : String)
    (status? : Option BookStatus) (s : Store)
    (ht : notEmptyCheck title = true) (ha : notEmptyCheck author = true) :
    createBook startYear cy1 title author (some y) status? s
      = createBook startYear cy2 title author (some y) status? s
    ∧ ((∃ s' bk, createBook startYear cy1 title author (some y) status? s
        = (s', ApiResult.ok 201 bk)) ↔ (0 ≤ y ∧ y ≤ startYear)) := by
  refine ⟨rfl, ?_⟩
  unfold createBook
  simp only [ht, ha, Bool.not_true, Bool.false_eq_true, if_false]
  by_cases hy : 0 ≤ y ∧ y ≤ startYear
  · have hyc : yearFieldOk startYear (some y) = true := by
      simp [yearFieldOk, yearCheck, hy.1, hy.2]
    simp only [hyc, Bool.not_true, Bool.false_eq_true, if_false]
    exact ⟨fun _ => hy, fun _ => ⟨_, _, rfl⟩⟩
  · have hyc : yearFieldOk startYear (some y) = false := by
      simp only [yearFieldOk, yearCheck, Bool.and_eq_false_iff,
        decide_eq_false_iff_not]
      omega
    simp only [hyc, Bool.not_false, if_true]
    constructor
    · rintro ⟨s', bk, heq⟩
      exact absurd (congrArg Prod.snd heq) (by simp)
    · intro hc
      exact absurd hc hy

theorem c7_year_bound_fixed_witness :
    notEmptyCheck "T" = true ∧ notEmptyCheck "A" = true
    ∧ ((∃ s' bk, createBook 2030 2030 "T" "A" (some 5) none emptyStore
        = (s', ApiResult.ok 201 bk)) ↔ (0 ≤ (5 : Int) ∧ (5 : Int) ≤ 2030)) :=
  ⟨by decide, by decide,
   (c7_year_bound_fixed_at_process_start 2030 2030 2031 5 "T" "A" none
     emptyStore (by decide) (by decide)).2⟩

/-- C7 counterexample: a process whose model was defined in 2024 and that
receives a createBook in calendar year 2025 rejects year 2025, though the
claim (call-time comparison) says 2025 ≤ 2025 must be accepted. -/
theorem c7_counterexample :
    (createBook 2024 2025 "T" "A" (some 2025) none emptyStore).2
      = ApiResult.err 400 "Validation on year failed"
    ∧ yearCheckAtCall 2025 2025 = true := by
  decide

theorem notEmptyCheck_iff_trimmedLen (str : String) :
    notEmptyCheck str = true ↔ 1 ≤ trimmedLen str := by
  unfold notEmptyCheck trimmedLen
  constructor
  · intro h
    rw [Bool.not_eq_true'] at h
    have h1 : str.data.dropWhile isWs ≠ [] := by
      intro hnil
      rw [List.dropWhile_eq_nil_iff] at hnil
      exact absurd (List.all_eq_true.mpr hnil) (by simp [h])
    have h2 : (str.data.dropWhile isWs).reverse.dropWhile isWs ≠ [] := by
      intro hnil
      rw [List.dropWhile_eq_nil_iff] at hnil
      have hhead := List.head_dropWhile_not isWs str.data h1
      have hmem : (str.data.dropWhile isWs).head h1
          ∈ (str.data.dropWhile isWs).reverse := by
        rw [List.mem_reverse]
        exact List.head_mem h1
      have hw := hnil _ hmem
      rw [hhead] at hw
      exact Bool.false_ne_true hw
    exact List.length_pos.mpr h2
  · intro h
    by_contra hne
    have hall : str.data.all isWs = true := by simpa using hne
    have hnil : str.data.dropWhile isWs = [] :=
      List.dropWhile_eq_nil_iff.mpr (List.all_eq_true.mp hall)
    rw [hnil] at h
    simp at h

/-- C8: the non-empty-text rule used for title, author and name accepts a
string exactly when its trimmed length is at least 1; in particular a
whitespace-only title, author or name makes createBook / createReader
answer 400 with a validation error and persist nothing. -/
theorem c8_nonempty_means_trimmed_length (str : String) :
    (notEmptyCheck str = true ↔ 1 ≤ trimmedLen str)
    ∧ (notEmptyCheck str = false →
        (∀ sy cy author y? st? s, createBook sy cy str author y? st? s
          = (s, ApiResult.err 400 "Validation notEmpty on title failed"))
        ∧ (∀ sy cy title y? st? s, notEmptyCheck title = true →
            createBook sy cy title str y? st? s
              = (s, ApiResult.err 400 "Validation notEmpty on author failed"))
        ∧ (∀ email phone? s, createReader str email phone? s
            = (s, ApiResult.err 400 "Validation notEmpty on name failed"))) := by
  refine ⟨notEmptyCheck_iff_trimmedLen str, fun hf => ⟨?_, ?_, ?_⟩⟩
  · intro sy cy author y? st? s
    unfold createBook
    simp [hf]
  · intro sy cy title y? st? s ht
    unfold createBook
    simp [hf, ht]
  · intro email phone? s
    unfold createReader
    simp [hf]

theorem c8_nonempty_means_trimmed_length_witness :
    (notEmptyCheck " \t " = true ↔ 1 ≤ trimmedLen " \t ")
    ∧ (notEmptyCheck " \t " = false)
    ∧ createBook 2024 2024 " \t " "A" none none emptyStore
        = (emptyStore, ApiResult.err 400 "Validation notEmpty on title failed")
    ∧ createReader " \t " "a@b.co" none emptyStore
        = (emptyStore, ApiResult.err 400 "Validation notEmpty on name failed") :=
  ⟨(c8_nonempty_means_trimmed_length " \t ").1,
   by decide,
   ((c8_nonempty_means_trimmed_length " \t ").2 (by decide)).1
     2024 2024 "A" none none emptyStore,
   ((c8_nonempty_means_trimmed_length " \t ").2 (by decide)).2.2
     "a@b.co" none emptyStore⟩

set_option linter.unusedVariables false in
/-- C9: POST /issue never consults the readers table: with the book
available the call succeeds (no NotFound for the reader) and persists a
new Issue row whatever readerId the request carries, even one matching
no Reader — indeed the outcome is identical for every readerId, since
the ReaderId key is dropped by create (not a model attribute) and the
stored row references no reader at all. -/
theorem c9_reader_existence_not_checked (s : Store)
    (now bookId readerId : Nat) (b : Book)
    (hb : findBook s bookId = some b)
    (hav : b.status = BookStatus.available)
    (hr : ∀ r ∈ s.readers, r.id ≠ readerId) :
    (∃ s' : Store,
      issueBook now bookId readerId s = (s', ApiResult.ok 201
        { id := s.nextIssueId, issueDate := now, returnDate := none,
          status := IssueStatus.issued })
      ∧ ({ id := s.nextIssueId, issueDate := now, returnDate := none,
           status := IssueStatus.issued } : Issue) ∈ s'.issues)
    ∧ (∀ readerId' : Nat, issueBook now bookId readerId s
        = issueBook now bookId readerId' s) := by
  refine ⟨⟨setBookStatus (issueWrite1 now bookId readerId s).1 bookId
    BookStatus.issued,
    issueBook_success now bookId readerId s b hb hav, ?_⟩,
    fun readerId' => rfl⟩
  exact List.mem_append_right _ (List.mem_singleton_self _)

theorem c9_reader_existence_not_checked_witness :
    (findBook oneAvailableBookStore 1
      = some { id := 1, title := "T", author := "A", year := none,
               status := BookStatus.available })
    ∧ (∀ r ∈ oneAvailableBookStore.readers, r.id ≠ 42)
    ∧ ((∃ s' : Store,
        issueBook 6 1 42 oneAvailableBookStore = (s', ApiResult.ok 201
          { id := 1, issueDate := 6, returnDate := none,
            status := IssueStatus.issued })
        ∧ ({ id := 1, issueDate := 6, returnDate := none,
             status := IssueStatus.issued } : Issue) ∈ s'.issues)
      ∧ (∀ readerId' : Nat, issueBook 6 1 42 oneAvailableBookStore
          = issueBook 6 1 readerId' oneAvailableBookStore)) :=
  ⟨by decide, by decide,
   c9_reader_existence_not_checked oneAvailableBookStore 6 1 42
     { id := 1, title := "T", author := "A", year := none,
       status := BookStatus.available } (by decide) (by decide) (by decide)⟩

/-- C10 refuted: POST /return never reaches the unconditional
book.update({status: available}) — the findOne before it rejects on the
missing BookId column — so even with an Issue row of status issued
present and the book in repair, the call answers 400 with the SQL error
and the book keeps its repair status. -/
theorem c10_book_update_unreachable :
    returnBook 4 1 repairWithOpenIssueStore
      = (repairWithOpenIssueStore, ApiResult.err 400 noSuchColumnMsg)
    ∧ findBook repairWithOpenIssueStore 1
      = some { id := 1, title := "T", author := "A", year := none,
               status := BookStatus.repair } := by
  decide

end LibServer
